import Mathlib

/-!
Verification of the Domain-Contact-Extractor repository.

This file gives a shallow embedding, in Lean 4, of the email-extraction
pipeline (`src/extractor.py`), the retrying OpenRouter client and input
validator (`src/company_lookup_app.py`) and the configuration tables
(`src/config/settings.py`), together with theorems settling the behavioural
claims about those components.

Modelling conventions:
- Python `str.lower()` is embedded as a character-wise map (`pyLower`); the
  addresses and keyword tables involved are ASCII, where `Char.toLower`
  coincides with Python's lowering.
- Python `re.search(p, s)` for the literal (metacharacter-free) patterns used
  by the code is embedded as a substring test (`substrB`).
- External library calls with no source in the repository
  (`validators.email`, `validators.url`, the regex scanner `re.findall`, the
  network, and the headless browser) are abstracted as function parameters or
  explicit outcome values fed to the embedded code; everything the repository
  itself does with those results is translated faithfully.
- Python `set` values are embedded as duplicate-free `List String` values
  built by `setAdd` (membership-checked insertion), so that every embedded
  operation is kernel-computable.
-/

/-- Embedding of Python `str.lower()` (character-wise ASCII lowering). -/
def pyLower (s : String) : String := ⟨s.data.map Char.toLower⟩

/-- Boolean test: the first list is a prefix of the second. -/
def listPrefixB : List Char → List Char → Bool
  | [], _ => true
  | _ :: _, [] => false
  | p :: ps, c :: cs => p == c && listPrefixB ps cs

/-- Boolean test: the first list occurs as a contiguous sublist of the second. -/
def listSubB (pat : List Char) : List Char → Bool
  | [] => listPrefixB pat []
  | c :: cs => listPrefixB pat (c :: cs) || listSubB pat cs

/-- Embedding of `re.search(pat, s)` for a literal pattern: substring test. -/
def substrB (pat s : String) : Bool := listSubB pat.data s.data

/-- Embedding of Python `s.startswith(pre)` (codepoint-wise). -/
def pyStartsWith (pre s : String) : Bool := listPrefixB pre.data s.data

/-- Embedding of Python slicing `s[n:]` (codepoint-wise). -/
def pyDrop (n : Nat) (s : String) : String := ⟨s.data.drop n⟩

/-- Embedding of Python `s.split(sep)` for a one-character separator,
on the underlying character list. -/
def splitChar (sep : Char) : List Char → List (List Char)
  | [] => [[]]
  | c :: cs =>
    if c == sep then [] :: splitChar sep cs
    else
      match splitChar sep cs with
      | [] => [[c]]
      | g :: gs => (c :: g) :: gs

/-- Embedding of Python `s.split(sep)` for a one-character separator. -/
def pySplit (sep : Char) (s : String) : List String :=
  (splitChar sep s.data).map String.mk

/-- Python `email.split('@')[1]`: the part between the first and second `@`,
or `none` when there is no `@` (in which case the source raises `IndexError`,
caught by the surrounding handler). -/
def domainOf (email : String) : Option String :=
  match pySplit '@' email with
  | _ :: d :: _ => some d
  | _ => none

/-- The `excluded_domains` set of `EmailExtractor.__init__` in
`src/extractor.py`. -/
def excluded_domains : List String :=
  ["example.com", "test.com", "domain.com", "yoursite.com",
   "sentry.io", "google.com", "facebook.com", "twitter.com",
   "linkedin.com", "instagram.com", "youtube.com", "wordpress.com"]

/-- The `fake_patterns` list of `EmailExtractor._is_valid_email` in
`src/extractor.py` (all patterns are literal strings). -/
def fake_patterns : List String :=
  ["noreply", "no-reply", "donotreply", "test@",
   "admin@example", "user@example", "contact@example"]

/-- Embedding of `EmailExtractor._is_valid_email` (`src/extractor.py`).
The external `validators.email` check is abstracted as the `grammar`
parameter; the rest is translated line by line: grammar check, domain
exclusion (lower-cased domain against `excluded_domains`), then the
fake-pattern substring scan over the lower-cased full address. -/
def is_valid_email (grammar : String → Bool) (email : String) : Bool :=
  if !grammar email then false
  else
    match domainOf email with
    | none => false
    | some dom =>
      if excluded_domains.contains (pyLower dom) then false
      else if fake_patterns.any (fun p => substrB p (pyLower email)) then false
      else true

-- Smoke checks of the embedding on concrete inputs (mirroring the source).
example : is_valid_email (fun _ => true) "a@example.com" = false := by decide
example : is_valid_email (fun _ => true) "jane@corp.org" = true := by decide
example : is_valid_email (fun _ => true) "contest@corp.com" = false := by decide
example : is_valid_email (fun _ => false) "jane@corp.org" = false := by decide
example : domainOf "a@b@c.com" = some "b" := by decide
example : pyLower "Jane@Example.ORG" = "jane@example.org" := by decide

/-- Embedding of Python `set.add`: append the element unless already
present (so sets stay duplicate-free lists). -/
def setAdd (s : List String) (e : String) : List String :=
  if s.contains e then s else s ++ [e]

/-- Embedding of Python `set.update` / in-place union. -/
def setUnion (s t : List String) : List String := t.foldl setAdd s

/-- The shared accumulation step of every extraction loop in
`src/extractor.py`: `if self._is_valid_email(email): emails.add(email.lower())`
folded over a candidate list, starting from the set built so far. -/
def collectValid (grammar : String → Bool) (init : List String)
    (cands : List String) : List String :=
  cands.foldl
    (fun acc e => if is_valid_email grammar e then setAdd acc (pyLower e) else acc)
    init

/-- A fetched page, as the extraction code sees it: the `href` values of its
anchors and the matches of the email regex over its text content (the
regex scan `self.email_pattern.findall` is external input to the loops we
embed). -/
structure Page where
  hrefs : List String
  textEmails : List String

/-- The mailto-anchor loop of `src/extractor.py`: for every href starting with
`mailto:`, the candidate is the href minus its 7-character scheme, with any
query-string suffix (after `?`) stripped. -/
def mailtoCandidates (hrefs : List String) : List String :=
  hrefs.filterMap fun href =>
    if pyStartsWith "mailto:" href then
      some ((pySplit '?' (pyDrop 7 href)).headD "")
    else none

/-- The ways the requests-based fetch can fail (non-2xx raised by
`raise_for_status`, network errors, anything else); all are caught by the
single `except Exception` handler in `extract_with_requests`. -/
inductive FetchError
  | badStatus (code : Nat)
  | network
  | other

/-- Embedding of `EmailExtractor.extract_with_requests` (`src/extractor.py`):
on any failure the handler returns the empty set; on success the mailto
anchors and then the text matches are validated and added lower-cased. -/
def extract_with_requests (grammar : String → Bool)
    (response : Except FetchError Page) : List String :=
  match response with
  | .error _ => []
  | .ok page =>
    collectValid grammar
      (collectValid grammar [] (mailtoCandidates page.hrefs))
      page.textEmails

/-- A Selenium-rendered page: anchors, text matches, and the regex matches
found in the contact/email sections; `contactSectionEmails = none` models the
inner `except Exception: pass` around the contact-section scan. -/
structure RenderedPage where
  hrefs : List String
  textEmails : List String
  contactSectionEmails : Option (List String)

/-- The outcomes of a Selenium session, one per handler in
`extract_with_selenium`: driver-start failure (the `raise` in
`_configure_selenium` lands in the generic handler), `TimeoutException`,
`WebDriverException`, any other exception, or a loaded page. -/
inductive SeleniumOutcome
  | sessionFailure
  | loadTimeout
  | webdriverError
  | otherError
  | loaded (page : RenderedPage)

/-- Embedding of `EmailExtractor.extract_with_selenium` (`src/extractor.py`):
every failure handler returns the empty set; on success the same
anchor/text extraction as the requests path runs, then the contact-section
matches are added (unless that inner scan raised, which is swallowed). -/
def extract_with_selenium (grammar : String → Bool)
    (outcome : SeleniumOutcome) : List String :=
  match outcome with
  | .loaded page =>
    let base :=
      collectValid grammar
        (collectValid grammar [] (mailtoCandidates page.hrefs))
        page.textEmails
    match page.contactSectionEmails with
    | some sectionEmails => collectValid grammar base sectionEmails
    | none => base
  | _ => []

/-- Outcome of one sitemap-path request: an exception (caught by the
per-path `except Exception: continue`) or a response with its status code
and body text. -/
inductive PathOutcome
  | failure
  | response (status : Nat) (body : String)

/-- A path outcome the sitemap loop accepts: an HTTP 200 response. -/
def isSuccess : PathOutcome → Bool
  | .response status _ => status == 200
  | .failure => false

/-- The loop of `EmailExtractor.extract_from_sitemap` over the candidate
sitemap URLs: exceptions are swallowed and the next path tried; a non-200
response also falls through to the next path; the first 200 response has
its body scanned and the loop breaks. -/
def trySitemaps (grammar : String → Bool) (scan : String → List String) :
    List PathOutcome → List String
  | [] => []
  | .failure :: rest => trySitemaps grammar scan rest
  | .response status body :: rest =>
    if status == 200 then collectValid grammar [] (scan body)
    else trySitemaps grammar scan rest

/-- The relative sitemap locations tried by `extract_from_sitemap`, in source
order. -/
def sitemapLocations : List String :=
  ["sitemap.xml", "sitemap_index.xml", "sitemap.txt"]

/-- Embedding of `EmailExtractor.extract_from_sitemap` (`src/extractor.py`).
`join` abstracts `urllib.parse.urljoin`, `fetch` the per-URL request, and
`scan` the email-regex scan of a body. -/
def extract_from_sitemap (join : String → String → String)
    (fetch : String → PathOutcome) (grammar : String → Bool)
    (scan : String → List String) (base_url : String) : List String :=
  trySitemaps grammar scan ((sitemapLocations.map (join base_url)).map fetch)

/-- The three extraction-method settings offered by the sidebar of `main`
(`src/extractor.py`): `Auto (Requests + Selenium)`, `Requests Only (Fast)`,
`Selenium Only (Thorough)`. -/
inductive Method
  | auto
  | requestsOnly
  | seleniumOnly
deriving DecidableEq

/-- `extraction_method in ["Auto (Requests + Selenium)", "Requests Only (Fast)"]`. -/
def methodUsesRequests : Method → Bool
  | .auto => true
  | .requestsOnly => true
  | .seleniumOnly => false

/-- `extraction_method in ["Auto (Requests + Selenium)", "Selenium Only (Thorough)"]`. -/
def methodSeleniumBranch : Method → Bool
  | .auto => true
  | .seleniumOnly => true
  | .requestsOnly => false

/-- `extraction_method == "Selenium Only (Thorough)"`. -/
def isSeleniumOnly : Method → Bool
  | .seleniumOnly => true
  | _ => false

/-- `extraction_method == "Auto (Requests + Selenium)"`. -/
def isAuto : Method → Bool
  | .auto => true
  | _ => false

/-- What one run of the extraction block of `main` did: the final merged
set and which strategies were invoked. -/
structure OrchestratorRun where
  result : List String
  usedStatic : Bool
  usedSelenium : Bool
  usedSitemap : Bool

/-- Embedding of the extraction block of `main` (`src/extractor.py`,
"Main extraction logic"): the three strategy results are parameters (each
strategy is itself embedded above); the block decides which to invoke and
merges into `all_emails`. The Selenium escalation threshold 3 is the literal
`len(all_emails) < 3` of the source. -/
def orchestrate (method : Method) (include_sitemap : Bool)
    (staticEmails seleniumEmails sitemapEmails : List String) :
    OrchestratorRun :=
  let all0 : List String := []
  let all1 := if methodUsesRequests method then setUnion all0 staticEmails else all0
  let should_use_selenium :=
    isSeleniumOnly method || (isAuto method && decide (all1.length < 3))
  let useSelenium := methodSeleniumBranch method && should_use_selenium
  let all2 := if useSelenium then setUnion all1 seleniumEmails else all1
  let all3 := if include_sitemap then setUnion all2 sitemapEmails else all2
  ⟨all3, methodUsesRequests method, useSelenium, include_sitemap⟩

/-- The category keys that `EmailAnalyzer.categorize_emails`
(`src/extractor.py`) can assign. -/
inductive Category
  | general
  | sales
  | support
  | info
  | admin
  | personal
deriving DecidableEq

/-- The `patterns` dict of `EmailAnalyzer.categorize_emails`
(`src/extractor.py`), in its insertion (and hence iteration) order. -/
def category_patterns : List (Category × List String) :=
  [(.sales, ["sales", "business", "commercial"]),
   (.support, ["support", "help", "service"]),
   (.info, ["info", "contact", "hello"]),
   (.admin, ["admin", "webmaster", "postmaster"])]

/-- The category loop of `categorize_emails`: walk the pattern table in
order and return the first category one of whose keywords matches the
local part (the two `break`s of the source collapse to this first match). -/
def firstMatchingCategory {α : Type} :
    List (α × List String) → String → Option α
  | [], _ => none
  | (cat, kws) :: rest, lp =>
    if kws.any (fun kw => substrB kw lp) then some cat
    else firstMatchingCategory rest lp

/-- Embedding of the per-address body of `EmailAnalyzer.categorize_emails`
(`src/extractor.py`): lower-cased local part, first matching category in
table order, else the personal/general fallback
(`'.' in local_part or len(local_part.split('.')) > 1`). -/
def categorize_email (email : String) : Category :=
  let local_part := pyLower ((pySplit '@' email).headD "")
  match firstMatchingCategory category_patterns local_part with
  | some cat => cat
  | none =>
    if local_part.data.contains '.' || (pySplit '.' local_part).length > 1 then
      .personal
    else .general

/-- The category keys of `EmailPatterns.CATEGORY_PATTERNS` in
`src/config/settings.py`. -/
inductive SettingsCategory
  | sales
  | support
  | info
  | admin
  | marketing
  | hr
deriving DecidableEq

/-- The `EmailPatterns.CATEGORY_PATTERNS` table of
`src/config/settings.py`, in source order. This configuration table is
declared in the repository but is not consulted by
`EmailAnalyzer.categorize_emails`. -/
def CATEGORY_PATTERNS : List (SettingsCategory × List String) :=
  [(.sales, ["sales", "business", "commercial", "revenue",
             "partnerships", "enterprise", "accounts"]),
   (.support, ["support", "help", "service", "assistance",
               "helpdesk", "care", "ticket"]),
   (.info, ["info", "contact", "hello", "general", "inquiry", "questions"]),
   (.admin, ["admin", "webmaster", "postmaster", "system",
             "technical", "it", "tech"]),
   (.marketing, ["marketing", "promo", "newsletter", "campaign",
                 "social", "media", "pr"]),
   (.hr, ["hr", "human", "resources", "recruitment",
          "careers", "jobs", "talent"])]

-- Smoke checks for the extraction and categorization embedding.
example :
    extract_with_requests (fun _ => true)
      (.ok ⟨["mailto:A@Corp.org?subject=hi"], ["b@corp.org"]⟩) =
      ["a@corp.org", "b@corp.org"] := by decide
example : categorize_email "sales@corp.org" = Category.sales := by decide
example : categorize_email "jane.doe@corp.org" = Category.personal := by decide
example : categorize_email "jane@corp.org" = Category.general := by decide
example : categorize_email "marketing@x.com" = Category.general := by decide


/-- Outcome of one attempt's HTTP POST in `OpenRouterClient.query_model`
(`src/company_lookup_app.py`): a response with status code and (for 200)
parsed content / (otherwise) body text, a `requests` timeout, or another
`RequestException`. -/
inductive CallOutcome
  | response (status : Nat) (content : String)
  | timeout
  | netError

/-- Observable actions of one `query_model` run, in order: issuing the POST,
sleeping for a number of seconds, logging an API error status. -/
inductive ClientAction
  | request
  | sleepFor (seconds : Nat)
  | logStatus (code : Nat)
deriving DecidableEq

/-- Embedding of the `for attempt in range(max_retries)` loop of
`OpenRouterClient.query_model` (`src/company_lookup_app.py`). The HTTP layer
is abstracted as the list of per-attempt outcomes; the function returns the
Python return value together with the trace of requests, sleeps and error
logs. Status 200 returns the content; 429 sleeps `(attempt + 1) * 5` and
continues; any other status logs the error and continues; timeouts and
request errors sleep `2 ** attempt` (except on the last attempt) and
continue; an exhausted loop returns `none`. -/
def queryLoop (max_retries : Nat) : Nat → List CallOutcome →
    Option String × List ClientAction
  | _, [] => (none, [])
  | attempt, o :: rest =>
    if attempt < max_retries then
      match o with
      | .response status content =>
        if status == 200 then (some content, [.request])
        else if status == 429 then
          let r := queryLoop max_retries (attempt + 1) rest
          (r.1, .request :: .sleepFor ((attempt + 1) * 5) :: r.2)
        else
          let r := queryLoop max_retries (attempt + 1) rest
          (r.1, .request :: .logStatus status :: r.2)
      | .timeout =>
        let r := queryLoop max_retries (attempt + 1) rest
        (r.1, .request ::
          ((if attempt < max_retries - 1 then [ClientAction.sleepFor (2 ^ attempt)]
            else []) ++ r.2))
      | .netError =>
        let r := queryLoop max_retries (attempt + 1) rest
        (r.1, .request ::
          ((if attempt < max_retries - 1 then [ClientAction.sleepFor (2 ^ attempt)]
            else []) ++ r.2))
    else (none, [])

/-- `OpenRouterClient.query_model` run from attempt 0. -/
def query_model (max_retries : Nat) (outcomes : List CallOutcome) :
    Option String × List ClientAction :=
  queryLoop max_retries 0 outcomes

/-- Embedding of `OpenRouterClient._wait_for_rate_limit`
(`src/company_lookup_app.py`). Time is rational-valued; `last` is the stored
`last_request_time`, `now` the value of `time.time()` on entry. Returns the
duration slept and the new `last_request_time` (the clock reading after the
sleep, which is when the request is issued). -/
def wait_for_rate_limit (rate_limit_delay last now : ℚ) : ℚ × ℚ :=
  if now - last < rate_limit_delay then
    (rate_limit_delay - (now - last), now + (rate_limit_delay - (now - last)))
  else
    (0, now)

/-- Embedding of Python `str.strip()` (ASCII-whitespace trim). -/
def pyStrip (s : String) : String :=
  ⟨((s.data.dropWhile Char.isWhitespace).reverse.dropWhile
      Char.isWhitespace).reverse⟩

/-- Embedding of `DataProcessor.validate_company_data`
(`src/company_lookup_app.py`). The external `validators.url` check is
abstracted as the `urlOk` parameter. Returns the `(is_valid, error_message)`
pair of the source. -/
def validate_company_data (urlOk : String → Bool)
    (company website country : String) : Bool × String :=
  if company == "" || (pyStrip company).length < 2 then
    (false, "Company name must be at least 2 characters")
  else if website == "" then
    (false, "Website URL is required")
  else
    let website1 :=
      if pyStartsWith "http://" website || pyStartsWith "https://" website then
        website
      else "https://" ++ website
    if !urlOk website1 then (false, "Invalid website URL format")
    else if country == "" || (pyStrip country).length < 2 then
      (false, "Country must be at least 2 characters")
    else (true, "")

-- Smoke checks for the client/validator embedding.
example : (query_model 3 [.response 429 "", .response 200 "hi"]).1 = some "hi" := by
  decide
example : (query_model 1 [.response 429 "", .response 200 "hi"]).1 = none := by
  decide
example : (query_model 3 [.timeout, .netError, .response 200 "hi"]).2 =
    [.request, .sleepFor 1, .request, .sleepFor 2, .request] := by decide
example : validate_company_data (fun _ => true) "Acme" "acme.com" "US" = (true, "") := by
  decide
example : validate_company_data (fun _ => true) "A" "acme.com" "US" =
    (false, "Company name must be at least 2 characters") := by decide
example : validate_company_data (fun s => pyStartsWith "https://" s) "Acme" "acme.com" "US" =
    (true, "") := by decide

/-- Helper: `Char.ofNat` at a scalar value below the surrogate range
round-trips through `toNat`. -/
theorem char_toNat_ofNat_valid {n : Nat} (h : n < 55296) :
    (Char.ofNat n).toNat = n := by
  unfold Char.ofNat
  rw [dif_pos (Or.inl h)]
  rfl

/-- ASCII lowering is idempotent on characters. -/
theorem char_toLower_idem (c : Char) : c.toLower.toLower = c.toLower := by
  unfold Char.toLower
  by_cases h : 65 ≤ c.toNat ∧ c.toNat ≤ 90
  · rw [if_pos h, if_neg]
    have ht : (Char.ofNat (c.toNat + 32)).toNat = c.toNat + 32 :=
      char_toNat_ofNat_valid (by omega)
    rw [ht]
    omega
  · rw [if_neg h, if_neg h]

/-- Python lowering is idempotent on strings. -/
theorem pyLower_idem (s : String) : pyLower (pyLower s) = pyLower s := by
  unfold pyLower
  simp only [List.map_map]
  exact congrArg String.mk
    (List.map_congr_left fun c _ => char_toLower_idem c)

/-- Membership in the embedded set-insert. -/
theorem mem_setAdd {s : List String} {e x : String} :
    x ∈ setAdd s e ↔ x ∈ s ∨ x = e := by
  unfold setAdd
  by_cases h : e ∈ s
  · rw [if_pos (List.elem_iff.mpr h)]
    constructor
    · exact .inl
    · rintro (hx | rfl)
      · exact hx
      · exact h
  · rw [if_neg (fun hc => h (List.elem_iff.mp hc))]
    simp [List.mem_append]

/-- The embedded set-insert preserves duplicate-freedom. -/
theorem nodup_setAdd {s : List String} (e : String) (h : s.Nodup) :
    (setAdd s e).Nodup := by
  unfold setAdd
  by_cases he : e ∈ s
  · rw [if_pos (List.elem_iff.mpr he)]
    exact h
  · rw [if_neg (fun hc => he (List.elem_iff.mp hc))]
    simpa [List.nodup_append] using ⟨h, he⟩

/-- Membership in the embedded set-union. -/
theorem mem_setUnion {t s : List String} {x : String} :
    x ∈ setUnion s t ↔ x ∈ s ∨ x ∈ t := by
  induction t generalizing s with
  | nil => simp [setUnion]
  | cons e es ih =>
    unfold setUnion at ih ⊢
    simp only [List.foldl_cons]
    rw [ih, mem_setAdd]
    simp only [List.mem_cons]
    tauto

/-- The embedded set-union preserves duplicate-freedom of the accumulator. -/
theorem nodup_setUnion {t s : List String} (h : s.Nodup) :
    (setUnion s t).Nodup := by
  induction t generalizing s with
  | nil => exact h
  | cons e es ih =>
    unfold setUnion
    simp only [List.foldl_cons]
    exact ih (nodup_setAdd e h)

/-- Disjoint union of duplicate-free lists is plain concatenation; in
particular a duplicate-free strategy result merged into the empty running
set is itself. -/
theorem setUnion_eq_append {t s : List String} (ht : t.Nodup)
    (hd : ∀ x ∈ t, x ∉ s) : setUnion s t = s ++ t := by
  induction t generalizing s with
  | nil => simp [setUnion]
  | cons e es ih =>
    unfold setUnion
    simp only [List.foldl_cons]
    have he : e ∉ s := hd e (List.mem_cons_self e es)
    have step : setAdd s e = s ++ [e] := by
      unfold setAdd
      rw [if_neg (fun hc => he (List.elem_iff.mp hc))]
    rw [step]
    have hes : es.Nodup := (List.nodup_cons.mp ht).2
    have hne : e ∉ es := (List.nodup_cons.mp ht).1
    have : setUnion (s ++ [e]) es = (s ++ [e]) ++ es := by
      apply ih hes
      intro x hx
      simp only [List.mem_append, List.mem_singleton]
      rintro (hxs | rfl)
      · exact hd x (List.mem_cons_of_mem e hx) hxs
      · exact hne hx
    unfold setUnion at this
    rw [this, List.append_assoc]
    rfl

/-- Merging a duplicate-free set into the empty running set returns it
unchanged. -/
theorem setUnion_nil {t : List String} (ht : t.Nodup) : setUnion [] t = t := by
  have := setUnion_eq_append (s := []) ht (by simp)
  simpa using this

/-- Every element the validation loop adds is a lower-cased candidate. -/
theorem mem_collectValid {grammar : String → Bool} {l : List String}
    {init : List String} {x : String} (hx : x ∈ collectValid grammar init l) :
    x ∈ init ∨ ∃ e, x = pyLower e := by
  induction l generalizing init with
  | nil => exact .inl hx
  | cons e es ih =>
    unfold collectValid at hx ih
    simp only [List.foldl_cons] at hx
    rcases ih hx with h | h
    · by_cases hv : is_valid_email grammar e
      · rw [if_pos hv] at h
        rcases mem_setAdd.mp h with h' | h'
        · exact .inl h'
        · exact .inr ⟨e, h'⟩
      · rw [if_neg hv] at h
        exact .inl h
    · exact .inr h

/-- The validation loop preserves duplicate-freedom. -/
theorem nodup_collectValid {grammar : String → Bool} {l : List String}
    {init : List String} (h : init.Nodup) :
    (collectValid grammar init l).Nodup := by
  induction l generalizing init with
  | nil => exact h
  | cons e es ih =>
    unfold collectValid at ih ⊢
    simp only [List.foldl_cons]
    by_cases hv : is_valid_email grammar e
    · rw [if_pos hv]
      exact ih (nodup_setAdd _ h)
    · rw [if_neg hv]
      exact ih h

/-- Every address the requests strategy returns is a lower-cased candidate. -/
theorem mem_extract_with_requests {grammar : String → Bool}
    {response : Except FetchError Page} {x : String}
    (hx : x ∈ extract_with_requests grammar response) :
    ∃ e, x = pyLower e := by
  unfold extract_with_requests at hx
  match response with
  | .error _ => cases hx
  | .ok page =>
    rcases mem_collectValid hx with h | h
    · rcases mem_collectValid h with h' | h'
      · cases h'
      · exact h'
    · exact h

/-- The requests strategy returns a duplicate-free list. -/
theorem nodup_extract_with_requests {grammar : String → Bool}
    {response : Except FetchError Page} :
    (extract_with_requests grammar response).Nodup := by
  unfold extract_with_requests
  match response with
  | .error _ => exact List.nodup_nil
  | .ok page => exact nodup_collectValid (nodup_collectValid List.nodup_nil)

/-- Every address the Selenium strategy returns is a lower-cased candidate. -/
theorem mem_extract_with_selenium {grammar : String → Bool}
    {outcome : SeleniumOutcome} {x : String}
    (hx : x ∈ extract_with_selenium grammar outcome) :
    ∃ e, x = pyLower e := by
  unfold extract_with_selenium at hx
  match outcome with
  | .sessionFailure => cases hx
  | .loadTimeout => cases hx
  | .webdriverError => cases hx
  | .otherError => cases hx
  | .loaded page =>
    simp only at hx
    match hsec : page.contactSectionEmails with
    | some sectionEmails =>
      rw [hsec] at hx
      rcases mem_collectValid hx with h | h
      · rcases mem_collectValid h with h' | h'
        · rcases mem_collectValid h' with h'' | h''
          · cases h''
          · exact h''
        · exact h'
      · exact h
    | none =>
      rw [hsec] at hx
      rcases mem_collectValid hx with h | h
      · rcases mem_collectValid h with h' | h'
        · cases h'
        · exact h'
      · exact h

/-- The Selenium strategy returns a duplicate-free list. -/
theorem nodup_extract_with_selenium {grammar : String → Bool}
    {outcome : SeleniumOutcome} :
    (extract_with_selenium grammar outcome).Nodup := by
  unfold extract_with_selenium
  match outcome with
  | .sessionFailure => exact List.nodup_nil
  | .loadTimeout => exact List.nodup_nil
  | .webdriverError => exact List.nodup_nil
  | .otherError => exact List.nodup_nil
  | .loaded page =>
    simp only
    match page.contactSectionEmails with
    | some sectionEmails =>
      exact nodup_collectValid (nodup_collectValid (nodup_collectValid List.nodup_nil))
    | none =>
      exact nodup_collectValid (nodup_collectValid List.nodup_nil)

/-- Every address the sitemap loop returns is a lower-cased candidate. -/
theorem mem_trySitemaps {grammar : String → Bool} {scan : String → List String}
    {outcomes : List PathOutcome} {x : String}
    (hx : x ∈ trySitemaps grammar scan outcomes) :
    ∃ e, x = pyLower e := by
  induction outcomes with
  | nil => cases hx
  | cons o rest ih =>
    match o with
    | .failure =>
      unfold trySitemaps at hx
      exact ih hx
    | .response status body =>
      unfold trySitemaps at hx
      by_cases hs : status == 200
      · rw [if_pos hs] at hx
        rcases mem_collectValid hx with h | h
        · cases h
        · exact h
      · rw [if_neg hs] at hx
        exact ih hx

/-- The sitemap loop returns a duplicate-free list. -/
theorem nodup_trySitemaps {grammar : String → Bool}
    {scan : String → List String} {outcomes : List PathOutcome} :
    (trySitemaps grammar scan outcomes).Nodup := by
  induction outcomes with
  | nil => exact List.nodup_nil
  | cons o rest ih =>
    match o with
    | .failure =>
      unfold trySitemaps
      exact ih
    | .response status body =>
      unfold trySitemaps
      by_cases hs : status == 200
      · rw [if_pos hs]
        exact nodup_collectValid List.nodup_nil
      · rw [if_neg hs]
        exact ih

/-- Every address in the orchestrator's merged result came from one of the
three strategy results. -/
theorem mem_orchestrate {method : Method} {include_sitemap : Bool}
    {staticEmails seleniumEmails sitemapEmails : List String} {x : String}
    (hx : x ∈ (orchestrate method include_sitemap staticEmails seleniumEmails
      sitemapEmails).result) :
    x ∈ staticEmails ∨ x ∈ seleniumEmails ∨ x ∈ sitemapEmails := by
  unfold orchestrate at hx
  simp only at hx
  split_ifs at hx <;>
    simp only [mem_setUnion, List.mem_nil_iff] at hx <;> tauto

/-- The orchestrator's merged result is duplicate-free. -/
theorem nodup_orchestrate {method : Method} {include_sitemap : Bool}
    {staticEmails seleniumEmails sitemapEmails : List String} :
    (orchestrate method include_sitemap staticEmails seleniumEmails
      sitemapEmails).result.Nodup := by
  unfold orchestrate
  simp only
  split_ifs <;>
    (repeat
      first
      | exact List.nodup_nil
      | apply nodup_setUnion)

/-- Helper: a sitemap loop fed only failing outcomes (exceptions or non-200
responses) returns the empty set. -/
theorem trySitemaps_eq_nil_of_all_fail {grammar : String → Bool}
    {scan : String → List String} {outcomes : List PathOutcome}
    (h : ∀ o ∈ outcomes, isSuccess o = false) :
    trySitemaps grammar scan outcomes = [] := by
  induction outcomes with
  | nil => rfl
  | cons o rest ih =>
    have ho := h o (List.mem_cons_self o rest)
    have hrest : ∀ o' ∈ rest, isSuccess o' = false :=
      fun o' ho' => h o' (List.mem_cons_of_mem o ho')
    cases o with
    | failure =>
      unfold trySitemaps
      exact ih hrest
    | response status body =>
      have ho' : (status == 200) = false := ho
      simp only [trySitemaps, ho', Bool.false_eq_true, if_false]
      exact ih hrest

/-- C1: in `auto` mode the Selenium fetcher is invoked exactly when the
running set after the static fetch has fewer than 3 addresses; in
Selenium-only mode it is always invoked; and the sitemap pass depends only
on the sitemap checkbox, for every mode and every strategy result. -/
theorem orchestrator_escalation_policy :
    ∀ (include_sitemap : Bool)
      (staticEmails seleniumEmails sitemapEmails : List String),
      staticEmails.Nodup →
      ((orchestrate .auto include_sitemap staticEmails seleniumEmails
          sitemapEmails).usedSelenium = decide (staticEmails.length < 3)) ∧
      ((orchestrate .seleniumOnly include_sitemap staticEmails seleniumEmails
          sitemapEmails).usedSelenium = true) ∧
      (∀ (method : Method),
        (orchestrate method include_sitemap staticEmails seleniumEmails
          sitemapEmails).usedSitemap = include_sitemap) := by
  intro include_sitemap s r m hs
  have h1 : setUnion [] s = s := setUnion_nil hs
  refine ⟨?_, ?_, ?_⟩
  · simp [orchestrate, methodUsesRequests, methodSeleniumBranch,
      isSeleniumOnly, isAuto, h1]
  · simp [orchestrate, methodUsesRequests, methodSeleniumBranch,
      isSeleniumOnly, isAuto]
  · intro method
    rfl

/-- C1 witness: with 2 unique static results Selenium is invoked, with 4 it
is not. -/
theorem orchestrator_escalation_policy_witness :
    ["a@x.com", "b@x.com"].Nodup ∧
    (orchestrate .auto true ["a@x.com", "b@x.com"] [] []).usedSelenium
      = true ∧
    ["a@x.com", "b@x.com", "c@x.com", "d@x.com"].Nodup ∧
    (orchestrate .auto true ["a@x.com", "b@x.com", "c@x.com", "d@x.com"]
      [] []).usedSelenium = false :=
  ⟨by decide,
   ((orchestrator_escalation_policy true ["a@x.com", "b@x.com"] [] []
      (by decide)).1).trans (by decide),
   by decide,
   ((orchestrator_escalation_policy true
      ["a@x.com", "b@x.com", "c@x.com", "d@x.com"] [] []
      (by decide)).1).trans (by decide)⟩

/-- C4: the validator rejects any address whose lower-cased domain is in the
exclusion set, and accepts any address that passes the grammar, has a
non-excluded domain and matches no fake pattern. -/
theorem email_validator_spec :
    ∀ (grammar : String → Bool) (email dom : String),
      domainOf email = some dom →
      (pyLower dom ∈ excluded_domains →
        is_valid_email grammar email = false) ∧
      (grammar email = true →
        pyLower dom ∉ excluded_domains →
        (∀ p ∈ fake_patterns, substrB p (pyLower email) = false) →
        is_valid_email grammar email = true) := by
  intro grammar email dom hdom
  constructor
  · intro hexc
    cases hg : grammar email <;>
      simp [is_valid_email, hdom, hexc, hg]
  · intro hg hexc hfake
    simpa [is_valid_email, hdom, hg, hexc] using hfake

/-- C4 witness: a clean address is accepted; an `example.com` address is
rejected. -/
theorem email_validator_spec_witness :
    domainOf "Jane@Corp.org" = some "Corp.org" ∧
    is_valid_email (fun _ => true) "Jane@Corp.org" = true ∧
    domainOf "a@example.com" = some "example.com" ∧
    is_valid_email (fun _ => true) "a@example.com" = false :=
  ⟨by decide,
   (email_validator_spec (fun _ => true) "Jane@Corp.org" "Corp.org"
      (by decide)).2 (by decide) (by decide) (by decide),
   by decide,
   (email_validator_spec (fun _ => true) "a@example.com" "example.com"
      (by decide)).1 (by decide)⟩


/-- C10: a fake-pattern match anywhere in the lower-cased full address makes
the validator reject, regardless of the grammar outcome or the domain. -/
theorem fake_pattern_matches_whole_address :
    ∀ (grammar : String → Bool) (email : String),
      fake_patterns.any (fun p => substrB p (pyLower email)) = true →
      is_valid_email grammar email = false := by
  intro grammar email hfake
  cases hg : grammar email
  · simp [is_valid_email, hg]
  · cases hdom : domainOf email
    · simp [is_valid_email, hg, hdom]
    · simp [is_valid_email, hg, hdom, hfake]

/-- C10 witness: `contest@corp.com` contains the substring `test@`, so it is
rejected although its domain is not excluded. -/
theorem fake_pattern_matches_whole_address_witness :
    fake_patterns.any (fun p => substrB p (pyLower "contest@corp.com"))
      = true ∧
    excluded_domains.contains (pyLower "corp.com") = false ∧
    is_valid_email (fun _ => true) "contest@corp.com" = false :=
  ⟨by decide, by decide,
   fake_pattern_matches_whole_address (fun _ => true) "contest@corp.com"
     (by decide)⟩

/-- C6: each fetch strategy maps every one of its failure outcomes to the
empty result instead of raising: any requests-layer failure, every Selenium
failure mode, and a sitemap pass whose attempts all fail. -/
theorem strategy_failures_return_empty :
    ∀ (grammar : String → Bool) (err : FetchError)
      (scan : String → List String) (outcomes : List PathOutcome),
      extract_with_requests grammar (.error err) = [] ∧
      extract_with_selenium grammar .sessionFailure = [] ∧
      extract_with_selenium grammar .loadTimeout = [] ∧
      extract_with_selenium grammar .webdriverError = [] ∧
      extract_with_selenium grammar .otherError = [] ∧
      ((∀ o ∈ outcomes, isSuccess o = false) →
        trySitemaps grammar scan outcomes = []) := by
  intro grammar err scan outcomes
  exact ⟨rfl, rfl, rfl, rfl, rfl, fun h => trySitemaps_eq_nil_of_all_fail h⟩

/-- C6 witness: concrete failing outcomes produce empty results. -/
theorem strategy_failures_return_empty_witness :
    (∀ o ∈ [PathOutcome.failure, PathOutcome.response 404 "x"],
      isSuccess o = false) ∧
    trySitemaps (fun _ => true) (fun _ => [])
      [PathOutcome.failure, PathOutcome.response 404 "x"] = [] ∧
    extract_with_requests (fun _ => true) (.error .network) = [] :=
  ⟨by decide,
   (strategy_failures_return_empty (fun _ => true) .network (fun _ => [])
      [PathOutcome.failure, PathOutcome.response 404 "x"]).2.2.2.2.2
     (by decide),
   (strategy_failures_return_empty (fun _ => true) .network (fun _ => [])
      [PathOutcome.failure, PathOutcome.response 404 "x"]).1⟩

/-- C7: with a monotone clock, the request issued after
`_wait_for_rate_limit` starts at least the configured delay after the
previous request started, and when the elapsed time is short the sleep is
exactly the remaining difference. -/
theorem rate_limit_minimum_spacing :
    ∀ (rate_limit_delay last now : ℚ),
      0 ≤ rate_limit_delay → last ≤ now →
      rate_limit_delay ≤ (wait_for_rate_limit rate_limit_delay last now).2
        - last ∧
      (now - last < rate_limit_delay →
        (wait_for_rate_limit rate_limit_delay last now).1 =
          rate_limit_delay - (now - last)) := by
  intro d last now hd hln
  unfold wait_for_rate_limit
  constructor
  · by_cases h : now - last < d
    · rw [if_pos h]
      dsimp only
      linarith
    · rw [if_neg h]
      dsimp only
      linarith
  · intro h
    rw [if_pos h]

/-- C7 witness: delay 2, previous start at time 0, second call entering at
time 1 sleeps exactly 1 and starts at time 2. -/
theorem rate_limit_minimum_spacing_witness :
    (0:ℚ) ≤ 2 ∧ (0:ℚ) ≤ 1 ∧
    (2:ℚ) ≤ (wait_for_rate_limit 2 0 1).2 - 0 ∧
    (wait_for_rate_limit 2 0 1).1 = 2 - (1 - 0) :=
  ⟨by decide, by decide,
   (rate_limit_minimum_spacing 2 0 1 (by decide) (by decide)).1,
   (rate_limit_minimum_spacing 2 0 1 (by decide) (by decide)).2 (by simp)⟩

/-- The body of the first HTTP-200 response among a list of per-path
outcomes: the declarative form of the sitemap loop's stopping policy. -/
def firstSuccessBody (outcomes : List PathOutcome) : Option String :=
  (outcomes.find? isSuccess).bind fun o =>
    match o with
    | .response _ body => some body
    | .failure => none

/-- Helper: the sitemap loop scans exactly the body of the first 200
response, and returns the empty set when there is none. -/
theorem trySitemaps_eq_firstSuccess (grammar : String → Bool)
    (scan : String → List String) (outcomes : List PathOutcome) :
    trySitemaps grammar scan outcomes =
      (match firstSuccessBody outcomes with
       | some body => collectValid grammar [] (scan body)
       | none => []) := by
  induction outcomes with
  | nil => rfl
  | cons o rest ih =>
    cases o with
    | failure =>
      rw [show trySitemaps grammar scan (.failure :: rest)
            = trySitemaps grammar scan rest from rfl]
      rw [show firstSuccessBody (.failure :: rest) = firstSuccessBody rest
            from rfl]
      exact ih
    | response status body =>
      by_cases hs : (status == 200) = true
      · have h1 : trySitemaps grammar scan (.response status body :: rest)
            = collectValid grammar [] (scan body) := by
          simp only [trySitemaps, hs, if_true]
        have h2 : firstSuccessBody (.response status body :: rest)
            = some body := by
          simp [firstSuccessBody, List.find?, isSuccess, hs]
        rw [h1, h2]
      · have hs' : (status == 200) = false := by simpa using hs
        have h1 : trySitemaps grammar scan (.response status body :: rest)
            = trySitemaps grammar scan rest := by
          simp only [trySitemaps, hs', Bool.false_eq_true, if_false]
        have h2 : firstSuccessBody (.response status body :: rest)
            = firstSuccessBody rest := by
          simp [firstSuccessBody, List.find?, isSuccess, hs']
        rw [h1, h2]
        exact ih

/-- C8: the sitemap fetcher probes `sitemap.xml`, `sitemap_index.xml`,
`sitemap.txt` in that order, scans exactly the body of the first 200
response and stops, skips any failed or non-200 attempt, and yields the
empty set when no attempt returns 200. -/
theorem sitemap_first_success_policy :
    ∀ (join : String → String → String) (fetch : String → PathOutcome)
      (grammar : String → Bool) (scan : String → List String)
      (base_url : String),
      (extract_from_sitemap join fetch grammar scan base_url =
        (match firstSuccessBody
            [fetch (join base_url "sitemap.xml"),
             fetch (join base_url "sitemap_index.xml"),
             fetch (join base_url "sitemap.txt")] with
         | some body => collectValid grammar [] (scan body)
         | none => [])) ∧
      (∀ (body : String) (rest : List PathOutcome),
        trySitemaps grammar scan (.response 200 body :: rest) =
          collectValid grammar [] (scan body)) ∧
      (∀ (o : PathOutcome) (rest : List PathOutcome), isSuccess o = false →
        trySitemaps grammar scan (o :: rest) = trySitemaps grammar scan rest) ∧
      (∀ (outcomes : List PathOutcome),
        (∀ o ∈ outcomes, isSuccess o = false) →
        trySitemaps grammar scan outcomes = []) := by
  intro join fetch grammar scan base_url
  refine ⟨?_, ?_, ?_, ?_⟩
  · exact trySitemaps_eq_firstSuccess grammar scan _
  · intro body rest
    rfl
  · intro o rest ho
    cases o with
    | failure => rfl
    | response status body =>
      have hs' : (status == 200) = false := ho
      simp only [trySitemaps, hs', Bool.false_eq_true, if_false]
  · intro outcomes h
    exact trySitemaps_eq_nil_of_all_fail h

/-- C8 witness: with the first path failing and the second answering 200,
the result is the scan of the second body, and a non-200 outcome is
skipped. -/
theorem sitemap_first_success_policy_witness :
    extract_from_sitemap (fun _ p => p)
      (fun u => if u == "sitemap.xml" then PathOutcome.failure
                else PathOutcome.response 200 "e@corp.org")
      (fun _ => true) (fun b => [b]) "https://x.org" = ["e@corp.org"] ∧
    trySitemaps (fun _ => true) (fun b => [b])
      [PathOutcome.response 404 "x", PathOutcome.response 200 "e@corp.org"] =
      trySitemaps (fun _ => true) (fun b => [b])
        [PathOutcome.response 200 "e@corp.org"] :=
  ⟨((sitemap_first_success_policy (fun _ p => p)
      (fun u => if u == "sitemap.xml" then PathOutcome.failure
                else PathOutcome.response 200 "e@corp.org")
      (fun _ => true) (fun b => [b]) "https://x.org").1).trans (by decide),
   (sitemap_first_success_policy (fun _ p => p)
      (fun u => if u == "sitemap.xml" then PathOutcome.failure
                else PathOutcome.response 200 "e@corp.org")
      (fun _ => true) (fun b => [b]) "https://x.org").2.2.1
     (PathOutcome.response 404 "x")
     [PathOutcome.response 200 "e@corp.org"] (by decide)⟩

/-- C3 counterexample: the claimed six-category table would classify
`marketing@x.com` as marketing (its local part matches the settings table's
marketing keywords first), but the categorizer in `extractor.py` assigns
`general` because its table stops at admin. -/
theorem categorizer_order_cex :
    categorize_email "marketing@x.com" = Category.general ∧
    firstMatchingCategory CATEGORY_PATTERNS (pyLower "marketing")
      = some SettingsCategory.marketing := by
  exact ⟨by decide, by decide⟩

/-- C3 amended: the categorizer tests the lower-cased local part against the
keyword lists in the fixed order sales, support, info, admin (marketing and
hr are absent from its table), first substring match wins, then falls back
to personal/general. -/
theorem categorizer_first_match_order :
    ∀ email : String,
      categorize_email email =
        (let lp := pyLower ((pySplit '@' email).headD "")
         if ["sales", "business", "commercial"].any
             (fun kw => substrB kw lp) then Category.sales
         else if ["support", "help", "service"].any
             (fun kw => substrB kw lp) then Category.support
         else if ["info", "contact", "hello"].any
             (fun kw => substrB kw lp) then Category.info
         else if ["admin", "webmaster", "postmaster"].any
             (fun kw => substrB kw lp) then Category.admin
         else if lp.data.contains '.' || (pySplit '.' lp).length > 1 then
           Category.personal
         else Category.general) := by
  intro email
  simp only [categorize_email, category_patterns, firstMatchingCategory]
  split_ifs <;> rfl

/-- Helper: the retry loop walks past any run of responses whose status is
neither 200 nor 429, issuing one request and one error log per attempt, and
returns the content of a following 200 response while attempts remain. -/
theorem queryLoop_skips_error_statuses :
    ∀ (errs : List (Nat × String)) (attempt max_retries : Nat) (c : String)
      (rest : List CallOutcome),
      (∀ p ∈ errs, p.1 ≠ 200 ∧ p.1 ≠ 429) →
      attempt + errs.length < max_retries →
      (queryLoop max_retries attempt
        (errs.map (fun p => CallOutcome.response p.1 p.2) ++
          CallOutcome.response 200 c :: rest)).1 = some c ∧
      (queryLoop max_retries attempt
        (errs.map (fun p => CallOutcome.response p.1 p.2) ++
          CallOutcome.response 200 c :: rest)).2.count ClientAction.request
        = errs.length + 1 := by
  intro errs
  induction errs with
  | nil =>
    intro attempt max_retries c rest _ hlen
    simp only [List.map_nil, List.nil_append, List.length_nil]
    have hstep : queryLoop max_retries attempt
        (CallOutcome.response 200 c :: rest) = (some c, [.request]) := by
      simp only [queryLoop]
      rw [if_pos (show attempt < max_retries by omega)]
      rfl
    rw [hstep]
    exact ⟨rfl, rfl⟩
  | cons p ps ih =>
    intro attempt max_retries c rest h hlen
    obtain ⟨h200, h429⟩ := h p (List.mem_cons_self p ps)
    have hps : ∀ q ∈ ps, q.1 ≠ 200 ∧ q.1 ≠ 429 :=
      fun q hq => h q (List.mem_cons_of_mem p hq)
    have e200 : (p.1 == 200) = false := by simpa using h200
    have e429 : (p.1 == 429) = false := by simpa using h429
    have hrec := ih (attempt + 1) max_retries c rest hps
      (by simp only [List.length_cons] at hlen; omega)
    simp only [List.map_cons, List.cons_append, List.length_cons]
    have hstep : queryLoop max_retries attempt
        (CallOutcome.response p.1 p.2 ::
          (ps.map (fun q => CallOutcome.response q.1 q.2) ++
            CallOutcome.response 200 c :: rest)) =
        (let r := queryLoop max_retries (attempt + 1)
          (ps.map (fun q => CallOutcome.response q.1 q.2) ++
            CallOutcome.response 200 c :: rest)
         (r.1, .request :: .logStatus p.1 :: r.2)) := by
      simp only [queryLoop]
      rw [if_pos (show attempt < max_retries by
        simp only [List.length_cons] at hlen; omega)]
      simp only [e200, e429, Bool.false_eq_true, if_false]
    rw [hstep]
    refine ⟨hrec.1, ?_⟩
    simp only [List.count_cons]
    rw [hrec.2]
    have hlog : (ClientAction.logStatus p.1 == ClientAction.request) = false := rfl
    have hreq : (ClientAction.request == ClientAction.request) = true := rfl
    simp only [hlog, hreq, Bool.false_eq_true, if_false, if_true]

/-- C2 counterexample: after a 500 response the loop does not stop — a
second request is issued and the second attempt's 200 content is returned,
so a non-200/non-429 status does not end the retrying. -/
theorem retry_client_other_status_cex :
    (query_model 3 [.response 500 "err", .response 200 "hello"]).1
      = some "hello" ∧
    (query_model 3 [.response 500 "err", .response 200 "hello"]).2.count
      ClientAction.request = 2 ∧
    ClientAction.logStatus 500
      ∈ (query_model 3 [.response 500 "err", .response 200 "hello"]).2 := by
  exact ⟨by decide, by decide, by decide⟩

/-- C2 amended: on a response with status other than 200 and 429 the client
logs the API error and proceeds to the next attempt — the request is
retried (one request per attempt), and a later 200 within the attempt
budget still returns its content. -/
theorem retry_client_other_status_retries :
    ∀ (errs : List (Nat × String)) (c : String) (rest : List CallOutcome)
      (max_retries : Nat),
      (∀ p ∈ errs, p.1 ≠ 200 ∧ p.1 ≠ 429) →
      errs.length < max_retries →
      (query_model max_retries
        (errs.map (fun p => CallOutcome.response p.1 p.2) ++
          CallOutcome.response 200 c :: rest)).1 = some c ∧
      (query_model max_retries
        (errs.map (fun p => CallOutcome.response p.1 p.2) ++
          CallOutcome.response 200 c :: rest)).2.count ClientAction.request
        = errs.length + 1 :=
  fun errs c rest max_retries h hlen =>
    queryLoop_skips_error_statuses errs 0 max_retries c rest h
      (by omega)

/-- C2 amended witness: one 500 response followed by a 200 yields the 200
content after two requests. -/
theorem retry_client_other_status_retries_witness :
    (query_model 3
      ([(500, "boom")].map (fun p => CallOutcome.response p.1 p.2) ++
        CallOutcome.response 200 "hi" :: [])).1 = some "hi" ∧
    (query_model 3
      ([(500, "boom")].map (fun p => CallOutcome.response p.1 p.2) ++
        CallOutcome.response 200 "hi" :: [])).2.count ClientAction.request
      = 2 :=
  retry_client_other_status_retries [(500, "boom")] "hi" [] 3
    (by decide) (by decide)

/-- A syntactically well-formed URL whose length exceeds the configured
2048-character `MAX_URL_LENGTH`: an `https://` scheme followed by 2100
path characters. -/
def longPathUrl : String := "https://" ++ String.mk (List.replicate 2100 'a')

/-- C9 counterexample: `validate_company_data` accepts a website URL longer
than the configured maximum length and a loopback-address URL whenever the
URL-syntax check accepts them — it contains no length check and no
private-address check (the `MAX_URL_LENGTH` and `RESTRICT_PRIVATE_IPS`
settings are never consulted), and it reports failures as a message pair
rather than typed `InvalidUrl`/`DisallowedTarget` errors. -/
theorem url_normalizer_cex :
    2048 < longPathUrl.length ∧
    validate_company_data (fun _ => true) "Acme" longPathUrl "United States"
      = (true, "") ∧
    validate_company_data (fun _ => true) "Acme" "http://127.0.0.1"
      "United States" = (true, "") := by
  have h1 : ("https://" : String).length = 8 := rfl
  have h2 : (String.mk (List.replicate 2100 'a')).length = 2100 := by
    show (List.replicate 2100 'a').length = 2100
    exact List.length_replicate 2100 'a'
  have hlen : longPathUrl.length = 2108 := by
    unfold longPathUrl
    rw [String.length_append, h1, h2]
  refine ⟨by omega, ?_, by decide⟩
  decide

/-- C9 amended: for a company and country of trimmed length at least 2 and a
non-empty website, the validator prepends `https://` exactly when the
website has no `http://`/`https://` prefix and then accepts or rejects
solely on the URL-syntax check, reporting `Invalid website URL format` on
rejection; no length or private-address restriction is applied. -/
theorem validate_company_data_spec :
    ∀ (urlOk : String → Bool) (company website country : String),
      (company == "") = false →
      2 ≤ (pyStrip company).length →
      (website == "") = false →
      (country == "") = false →
      2 ≤ (pyStrip country).length →
      validate_company_data urlOk company website country =
        (let website1 :=
          if pyStartsWith "http://" website || pyStartsWith "https://" website
          then website
          else "https://" ++ website
         if urlOk website1 then (true, "")
         else (false, "Invalid website URL format")) := by
  intro urlOk company website country hc hcl hw hcnt hcntl
  have h1 : (company == "" || decide ((pyStrip company).length < 2))
      = false := by
    simp only [hc, Bool.false_or, decide_eq_false_iff_not]
    omega
  have h3 : (country == "" || decide ((pyStrip country).length < 2))
      = false := by
    simp only [hcnt, Bool.false_or, decide_eq_false_iff_not]
    omega
  simp only [validate_company_data, h1, hw, h3, Bool.false_eq_true, if_false]
  cases hu : urlOk (if pyStartsWith "http://" website
      || pyStartsWith "https://" website then website
      else "https://" ++ website) <;>
    simp [hu]

/-- C9 amended witness: a schemeless website gets `https://` prepended and
passes a syntax check that requires that scheme. -/
theorem validate_company_data_spec_witness :
    validate_company_data (fun s => pyStartsWith "https://" s) "Acme"
      "example.com" "US" = (true, "") :=
  (validate_company_data_spec (fun s => pyStartsWith "https://" s) "Acme"
      "example.com" "US" (by decide) (by decide) (by decide) (by decide)
      (by decide)).trans (by decide)

/-- C5: the orchestrator's merged result (over the embedded strategies) is
case-insensitively deduplicated: it is duplicate-free, every entry is its
own lower-cased canonical form, and entries equal under case-insensitive
comparison are identical. -/
theorem extraction_dedup_case_insensitive :
    ∀ (grammar : String → Bool) (method : Method) (include_sitemap : Bool)
      (response : Except FetchError Page) (outcome : SeleniumOutcome)
      (join : String → String → String) (fetch : String → PathOutcome)
      (scan : String → List String) (base_url : String) (R : List String),
      R = (orchestrate method include_sitemap
          (extract_with_requests grammar response)
          (extract_with_selenium grammar outcome)
          (extract_from_sitemap join fetch grammar scan base_url)).result →
      R.Nodup ∧
      (∀ x ∈ R, pyLower x = x) ∧
      (∀ x ∈ R, ∀ y ∈ R, pyLower x = pyLower y → x = y) := by
  intro grammar method include_sitemap response outcome join fetch scan
    base_url R hR
  subst hR
  have hlow : ∀ x ∈ (orchestrate method include_sitemap
      (extract_with_requests grammar response)
      (extract_with_selenium grammar outcome)
      (extract_from_sitemap join fetch grammar scan base_url)).result,
      pyLower x = x := by
    intro x hx
    rcases mem_orchestrate hx with h | h | h
    · rcases mem_extract_with_requests h with ⟨e, rfl⟩
      exact pyLower_idem e
    · rcases mem_extract_with_selenium h with ⟨e, rfl⟩
      exact pyLower_idem e
    · have h' : x ∈ trySitemaps grammar scan
          ((sitemapLocations.map (join base_url)).map fetch) := h
      rcases mem_trySitemaps h' with ⟨e, rfl⟩
      exact pyLower_idem e
  refine ⟨nodup_orchestrate, hlow, ?_⟩
  intro x hx y hy hxy
  calc x = pyLower x := (hlow x hx).symm
    _ = pyLower y := hxy
    _ = y := hlow y hy

/-- C5 witness: a mailto candidate and a text candidate differing only in
case collapse to the single lower-cased entry. -/
theorem extraction_dedup_case_insensitive_witness :
    "jane@acme.org" ∈ (orchestrate .requestsOnly false
      (extract_with_requests (fun _ => true)
        (.ok ⟨["mailto:Jane@Acme.ORG"], ["jane@ACME.org"]⟩))
      (extract_with_selenium (fun _ => true) .sessionFailure)
      (extract_from_sitemap (fun _ p => p) (fun _ => .failure)
        (fun _ => true) (fun _ => []) "x")).result ∧
    pyLower "jane@acme.org" = "jane@acme.org" ∧
    (orchestrate .requestsOnly false
      (extract_with_requests (fun _ => true)
        (.ok ⟨["mailto:Jane@Acme.ORG"], ["jane@ACME.org"]⟩))
      (extract_with_selenium (fun _ => true) .sessionFailure)
      (extract_from_sitemap (fun _ p => p) (fun _ => .failure)
        (fun _ => true) (fun _ => []) "x")).result.Nodup :=
  ⟨by decide,
   (extraction_dedup_case_insensitive (fun _ => true) .requestsOnly false
      (.ok ⟨["mailto:Jane@Acme.ORG"], ["jane@ACME.org"]⟩) .sessionFailure
      (fun _ p => p) (fun _ => .failure) (fun _ => []) "x" _ rfl).2.1
     "jane@acme.org" (by decide),
   (extraction_dedup_case_insensitive (fun _ => true) .requestsOnly false
      (.ok ⟨["mailto:Jane@Acme.ORG"], ["jane@ACME.org"]⟩) .sessionFailure
      (fun _ p => p) (fun _ => .failure) (fun _ => []) "x" _ rfl).1⟩
